import Mathlib

/-!
Shallow embedding of the StratoSense data-registry contract
(`contracts/atmos-v2.clar`, Clarity) and proofs about it.

Modelling conventions:
- Clarity principals are modelled as `Nat`.
- Clarity `uint` is `Nat`, `int` is `Int`, strings are Lean `String`
  (only their length and equality matter to the contract logic).
- The two `define-map`s are association lists keyed by `Nat`
  (`mapGet` / `mapSet` reproduce `map-get?` / `map-set`).
- Each `define-public` function becomes a Lean function from the caller
  (`tx-sender`), its arguments and the registry state to
  `Except ContractError value × RegistryState`.  Following Clarity's
  semantics for public calls, a function that returns `(err e)` has all
  of its intermediate `map-set` / `var-set` writes rolled back, so every
  error branch returns the original state.
-/

/-- Error codes of the contract (`err u401` etc.). -/
inductive ContractError where
  | notAuthorized      -- ERR-NOT-AUTHORIZED (err u401)
  | datasetNotFound    -- ERR-DATASET-NOT-FOUND (err u404)
  | invalidParams      -- ERR-INVALID-PARAMS (err u400)
  | metadataFrozen     -- ERR-METADATA-FROZEN (err u403)
  | contractPaused     -- ERR-CONTRACT-PAUSED (err u503)
  | datasetExists      -- ERR-DATASET-EXISTS (err u409)
deriving Repr, DecidableEq

/-- MAX-OWNER-DATASETS -/
def MAX_OWNER_DATASETS : Nat := 1000

/-- MAX-PAGE-SIZE -/
def MAX_PAGE_SIZE : Nat := 100

/-- The tuple stored in the `datasets` map. -/
structure Dataset where
  owner : Nat
  name : String
  description : String
  dataType : String
  collectionDate : Nat
  altitudeMin : Nat
  altitudeMax : Nat
  latitude : Int
  longitude : Int
  ipfsHash : String
  isPublic : Bool
  metadataFrozen : Bool
  createdAt : Nat
  status : String
deriving Repr, DecidableEq

/-- `map-get?` on an association list. -/
def mapGet {α : Type} (m : List (Nat × α)) (k : Nat) : Option α :=
  match m with
  | [] => none
  | (k', v) :: rest => if k' = k then some v else mapGet rest k

/-- `map-set` on an association list: replace if present, else insert. -/
def mapSet {α : Type} (m : List (Nat × α)) (k : Nat) (v : α) : List (Nat × α) :=
  match m with
  | [] => [(k, v)]
  | (k', v') :: rest => if k' = k then (k, v) :: rest else (k', v') :: mapSet rest k v

/-- The data vars and the two maps of the contract. -/
structure RegistryState where
  datasets : List (Nat × Dataset)
  datasetsByOwner : List (Nat × List Nat)
  datasetCounter : Nat
  contractAdmin : Nat
  contractPaused : Bool
deriving Repr, DecidableEq

/-- Contract state right after deployment by `deployer`
(`dataset-counter u0`, `contract-admin tx-sender`, `contract-paused false`). -/
def initialState (deployer : Nat) : RegistryState :=
  { datasets := []
    datasetsByOwner := []
    datasetCounter := 0
    contractAdmin := deployer
    contractPaused := false }

/-- `get-owner-dataset-ids` (via `get-owner-entry` and its `default-to`). -/
def getOwnerDatasetIds (s : RegistryState) (owner : Nat) : List Nat :=
  match mapGet s.datasetsByOwner owner with
  | some ids => ids
  | none => []

/-- `is-dataset-owner`. -/
def isDatasetOwner (s : RegistryState) (sender : Nat) (datasetId : Nat) : Bool :=
  match mapGet s.datasets datasetId with
  | some data => sender = data.owner
  | none => false

/-- `is-valid-status`. -/
def isValidStatus (status : String) : Bool :=
  status = "active" || status = "deprecated"

/-- `validate-fields`.  Note the `ipfs-hash` conjunct of the source,
`(or (is-eq (len ipfs-hash) u0) (>= (len ipfs-hash) u1))`, is kept verbatim. -/
def validateFields (name description dataType : String)
    (collectionDate altitudeMin altitudeMax : Nat)
    (latitude longitude : Int) (ipfsHash : String) (status : String) : Bool :=
  decide (1 ≤ name.length) &&
  decide (1 ≤ description.length) &&
  decide (1 ≤ dataType.length) &&
  decide (0 < collectionDate) &&
  decide (altitudeMin ≤ altitudeMax) &&
  (decide ((-90) * 1000000 ≤ latitude) && decide (latitude ≤ 90 * 1000000)) &&
  (decide ((-180) * 1000000 ≤ longitude) && decide (longitude ≤ 180 * 1000000)) &&
  (decide (ipfsHash.length = 0) || decide (1 ≤ ipfsHash.length)) &&
  isValidStatus status

/-- `check-not-paused`: `(not (var-get contract-paused))` — note it does not
look at the caller at all. -/
def checkNotPaused (s : RegistryState) : Bool :=
  !s.contractPaused

/-- `add-dataset-to-owner`.  Returns `none` for `(err ERR-INVALID-PARAMS)`
(capacity exhausted), `some s'` for success. -/
def addDatasetToOwner (s : RegistryState) (owner : Nat) (datasetId : Nat) :
    Option RegistryState :=
  let current := getOwnerDatasetIds s owner
  if datasetId ∈ current then
    some s
  else if (current ++ [datasetId]).length ≤ MAX_OWNER_DATASETS then
    some { s with datasetsByOwner :=
            mapSet s.datasetsByOwner owner (current ++ [datasetId]) }
  else
    none

/-- `remove-fold`: skip the target, append everything else. -/
def removeFold (item : Nat) (acc : List Nat × Nat) : List Nat × Nat :=
  if item = acc.2 then acc else (acc.1 ++ [item], acc.2)

/-- `remove-dataset-from-owner`: fold `remove-fold` over the owner's list. -/
def removeDatasetFromOwner (s : RegistryState) (owner : Nat) (datasetId : Nat) :
    RegistryState :=
  let current := getOwnerDatasetIds s owner
  let updated := (current.foldl (fun acc item => removeFold item acc) ([], datasetId)).1
  { s with datasetsByOwner := mapSet s.datasetsByOwner owner updated }

/-- Clarity `range a b`: the ascending integers `a, a+1, …, b-1`
(used by `get-dataset-ids-page` to materialize `[offset+1 .. last]`). -/
def clarityRange (a b : Nat) : List Nat :=
  List.range' a (b - a)

/-- `page-next-offset`. -/
def pageNextOffset (offset : Nat) (page : List Nat) (total : Nat) : Option Nat :=
  let next := offset + page.length
  if next < total then some next else none

/-- `get-dataset-ids-page` (read-only; returns the items and the cursor). -/
def getDatasetIdsPage (s : RegistryState) (offset limit : Nat) :
    List Nat × Option Nat :=
  let total := s.datasetCounter
  if total = 0 ∨ offset ≥ total then
    ([], none)
  else
    let safeLimit := if limit > MAX_PAGE_SIZE then MAX_PAGE_SIZE else limit
    let en := offset + safeLimit
    let last := if en > total then total else en
    let items := clarityRange (offset + 1) (last + 1)
    (items, pageNextOffset offset items total)

/-- `register-dataset`.  `blockHeight` stands for `burn-block-height`.
Every error branch returns the caller's state `s` (Clarity rolls back the
writes of a public call that returns `err`). -/
def registerDataset (s : RegistryState) (sender blockHeight : Nat)
    (name description dataType : String)
    (collectionDate altitudeMin altitudeMax : Nat)
    (latitude longitude : Int) (ipfsHash : String) (isPublic : Bool) :
    Except ContractError Nat × RegistryState :=
  let datasetId := s.datasetCounter + 1
  if ¬ checkNotPaused s then
    (.error .contractPaused, s)
  else if ¬ validateFields name description dataType collectionDate
      altitudeMin altitudeMax latitude longitude ipfsHash "active" then
    (.error .invalidParams, s)
  else
    let newRecord : Dataset :=
      { owner := sender, name := name, description := description
        dataType := dataType, collectionDate := collectionDate
        altitudeMin := altitudeMin, altitudeMax := altitudeMax
        latitude := latitude, longitude := longitude, ipfsHash := ipfsHash
        isPublic := isPublic, metadataFrozen := false
        createdAt := blockHeight, status := "active" }
    let s1 := { s with datasets := mapSet s.datasets datasetId newRecord }
    match addDatasetToOwner s1 sender datasetId with
    | none => (.error .invalidParams, s)
    | some s2 => (.ok datasetId, { s2 with datasetCounter := datasetId })

/-- `update-dataset-metadata`. -/
def updateDatasetMetadata (s : RegistryState) (sender datasetId : Nat)
    (name description dataType : String) (isPublic : Bool) :
    Except ContractError Bool × RegistryState :=
  match mapGet s.datasets datasetId with
  | none => (.error .datasetNotFound, s)
  | some dataset =>
    if ¬ checkNotPaused s then
      (.error .contractPaused, s)
    else if ¬ isDatasetOwner s sender datasetId then
      (.error .notAuthorized, s)
    else if dataset.metadataFrozen then
      (.error .metadataFrozen, s)
    else if ¬ (1 ≤ name.length ∧ 1 ≤ description.length ∧ 1 ≤ dataType.length) then
      (.error .invalidParams, s)
    else
      let newRecord : Dataset :=
        { dataset with name := name, description := description
                       dataType := dataType, isPublic := isPublic }
      (.ok true, { s with datasets := mapSet s.datasets datasetId newRecord })

/-- `freeze-dataset-metadata`. -/
def freezeDatasetMetadata (s : RegistryState) (sender datasetId : Nat) :
    Except ContractError Bool × RegistryState :=
  match mapGet s.datasets datasetId with
  | none => (.error .datasetNotFound, s)
  | some dataset =>
    if ¬ checkNotPaused s then
      (.error .contractPaused, s)
    else if ¬ isDatasetOwner s sender datasetId then
      (.error .notAuthorized, s)
    else
      let newRecord : Dataset := { dataset with metadataFrozen := true }
      (.ok true, { s with datasets := mapSet s.datasets datasetId newRecord })

/-- `transfer-dataset`.  The capacity failure of `add-dataset-to-owner` is
surfaced by `unwrap!` as `ERR-INVALID-PARAMS` and — being an `err` result of
the public call — rolls back the owner-field write and the index removal. -/
def transferDataset (s : RegistryState) (sender datasetId newOwner : Nat) :
    Except ContractError Bool × RegistryState :=
  match mapGet s.datasets datasetId with
  | none => (.error .datasetNotFound, s)
  | some dataset =>
    let oldOwner := dataset.owner
    if ¬ checkNotPaused s then
      (.error .contractPaused, s)
    else if ¬ isDatasetOwner s sender datasetId then
      (.error .notAuthorized, s)
    else
      let newRecord : Dataset := { dataset with owner := newOwner }
      let s1 := { s with datasets := mapSet s.datasets datasetId newRecord }
      let s2 := removeDatasetFromOwner s1 oldOwner datasetId
      match addDatasetToOwner s2 newOwner datasetId with
      | none => (.error .invalidParams, s)
      | some s3 => (.ok true, s3)

/-- `import-dataset` (admin-only backfill). -/
def importDataset (s : RegistryState) (sender datasetId owner : Nat)
    (name description dataType : String)
    (collectionDate altitudeMin altitudeMax : Nat)
    (latitude longitude : Int) (ipfsHash : String)
    (isPublic metadataFrozen : Bool) (createdAt : Nat) (status : String) :
    Except ContractError Nat × RegistryState :=
  if sender ≠ s.contractAdmin then
    (.error .notAuthorized, s)
  else if ¬ checkNotPaused s then
    (.error .contractPaused, s)
  else if datasetId = 0 then
    (.error .invalidParams, s)
  else if (mapGet s.datasets datasetId).isSome then
    (.error .datasetExists, s)
  else if ¬ validateFields name description dataType collectionDate
      altitudeMin altitudeMax latitude longitude ipfsHash status then
    (.error .invalidParams, s)
  else
    let newRecord : Dataset :=
      { owner := owner, name := name, description := description
        dataType := dataType, collectionDate := collectionDate
        altitudeMin := altitudeMin, altitudeMax := altitudeMax
        latitude := latitude, longitude := longitude, ipfsHash := ipfsHash
        isPublic := isPublic, metadataFrozen := metadataFrozen
        createdAt := createdAt, status := status }
    let s1 := { s with datasets := mapSet s.datasets datasetId newRecord }
    match addDatasetToOwner s1 owner datasetId with
    | none => (.error .invalidParams, s)
    | some s2 =>
      let s3 := if datasetId > s2.datasetCounter then
                  { s2 with datasetCounter := datasetId }
                else s2
      (.ok datasetId, s3)

/-- `set-contract-admin`. -/
def setContractAdmin (s : RegistryState) (sender newAdmin : Nat) :
    Except ContractError Nat × RegistryState :=
  if sender ≠ s.contractAdmin then
    (.error .notAuthorized, s)
  else
    (.ok newAdmin, { s with contractAdmin := newAdmin })

/-- `set-paused`. -/
def setPaused (s : RegistryState) (sender : Nat) (paused : Bool) :
    Except ContractError Bool × RegistryState :=
  if sender ≠ s.contractAdmin then
    (.error .notAuthorized, s)
  else
    (.ok paused, { s with contractPaused := paused })

/-- One public call of the contract: `Step s s'` says some public function,
invoked with some caller and arguments, takes the registry from `s` to `s'`
(on an `err` result `s' = s` by the rollback built into the functions). -/
inductive Step : RegistryState → RegistryState → Prop where
  | register (sender blockHeight : Nat) (name description dataType : String)
      (collectionDate altitudeMin altitudeMax : Nat)
      (latitude longitude : Int) (ipfsHash : String) (isPublic : Bool)
      (s : RegistryState) :
      Step s (registerDataset s sender blockHeight name description dataType
        collectionDate altitudeMin altitudeMax latitude longitude
        ipfsHash isPublic).2
  | update (sender datasetId : Nat) (name description dataType : String)
      (isPublic : Bool) (s : RegistryState) :
      Step s (updateDatasetMetadata s sender datasetId name description
        dataType isPublic).2
  | freeze (sender datasetId : Nat) (s : RegistryState) :
      Step s (freezeDatasetMetadata s sender datasetId).2
  | transfer (sender datasetId newOwner : Nat) (s : RegistryState) :
      Step s (transferDataset s sender datasetId newOwner).2
  | importStep (sender datasetId owner : Nat)
      (name description dataType : String)
      (collectionDate altitudeMin altitudeMax : Nat)
      (latitude longitude : Int) (ipfsHash : String)
      (isPublic metadataFrozen : Bool) (createdAt : Nat) (status : String)
      (s : RegistryState) :
      Step s (importDataset s sender datasetId owner name description dataType
        collectionDate altitudeMin altitudeMax latitude longitude ipfsHash
        isPublic metadataFrozen createdAt status).2
  | setAdmin (sender newAdmin : Nat) (s : RegistryState) :
      Step s (setContractAdmin s sender newAdmin).2
  | setPausedStep (sender : Nat) (paused : Bool) (s : RegistryState) :
      Step s (setPaused s sender paused).2

/-- A state reachable from deployment by a sequence of public calls. -/
def Reachable (deployer : Nat) (s : RegistryState) : Prop :=
  Relation.ReflTransGen Step (initialState deployer) s

/-- Record `datasetId` exists and its metadata is frozen in state `s`. -/
def FrozenAt (s : RegistryState) (datasetId : Nat) : Prop :=
  ∃ d, mapGet s.datasets datasetId = some d ∧ d.metadataFrozen = true

/-- Every identifier present in the `datasets` map is at most the counter. -/
def CounterInv (s : RegistryState) : Prop :=
  ∀ id d, mapGet s.datasets id = some d → id ≤ s.datasetCounter

/-! ### Basic lemmas about the association-list maps -/

theorem mapGet_mapSet_self {α : Type} (m : List (Nat × α)) (k : Nat) (v : α) :
    mapGet (mapSet m k v) k = some v := by
  induction m with
  | nil => simp [mapGet, mapSet]
  | cons hd tl ih =>
    obtain ⟨k', v'⟩ := hd
    by_cases h : k' = k <;> simp [mapGet, mapSet, h, ih]

theorem mapGet_mapSet_ne {α : Type} (m : List (Nat × α)) (k k' : Nat) (v : α)
    (h : k' ≠ k) : mapGet (mapSet m k v) k' = mapGet m k' := by
  induction m with
  | nil =>
    simp only [mapSet, mapGet]
    rw [if_neg (by omega)]
  | cons hd tl ih =>
    obtain ⟨k'', v''⟩ := hd
    simp only [mapSet]
    by_cases h2 : k'' = k
    · subst h2
      simp only [if_pos rfl, mapGet]
      rw [if_neg (by omega), if_neg (by omega)]
    · simp only [if_neg h2, mapGet]
      by_cases h3 : k'' = k'
      · simp [h3]
      · simp [h3, ih]

theorem mapSet_eq_of_mapGet_eq {α : Type} (m : List (Nat × α)) (k : Nat) (v : α)
    (h : mapGet m k = some v) : mapSet m k v = m := by
  induction m with
  | nil => simp [mapGet] at h
  | cons hd tl ih =>
    obtain ⟨k', v'⟩ := hd
    by_cases h2 : k' = k
    · subst h2
      simp [mapGet] at h
      simp [mapSet, h]
    · simp [mapGet, h2] at h
      simp [mapSet, h2, ih h]

/-- The remove fold computes `filter (· ≠ target)`, in order. -/
theorem removeFold_foldl (l : List Nat) (res : List Nat) (target : Nat) :
    (l.foldl (fun acc item => removeFold item acc) (res, target)).1
      = res ++ l.filter (fun x => x ≠ target) := by
  induction l generalizing res with
  | nil => simp
  | cons hd tl ih =>
    rw [List.foldl_cons, List.filter_cons]
    by_cases h : hd = target
    · rw [show removeFold hd (res, target) = (res, target) from by
        simp [removeFold, h]]
      rw [ih]
      simp [h]
    · rw [show removeFold hd (res, target) = (res ++ [hd], target) from by
        simp [removeFold, h]]
      rw [ih]
      simp [h]

theorem removeDatasetFromOwner_ids (s : RegistryState) (owner datasetId : Nat) :
    getOwnerDatasetIds (removeDatasetFromOwner s owner datasetId) owner
      = (getOwnerDatasetIds s owner).filter (fun x => x ≠ datasetId) := by
  simp [removeDatasetFromOwner, getOwnerDatasetIds, removeFold_foldl,
    mapGet_mapSet_self]

theorem removeDatasetFromOwner_ids_ne (s : RegistryState) (owner o datasetId : Nat)
    (h : o ≠ owner) :
    getOwnerDatasetIds (removeDatasetFromOwner s owner datasetId) o
      = getOwnerDatasetIds s o := by
  simp [removeDatasetFromOwner, getOwnerDatasetIds, mapGet_mapSet_ne _ _ _ _ h]

theorem mem_clarityRange (m a b : Nat) : m ∈ clarityRange a b ↔ a ≤ m ∧ m < b := by
  constructor
  · intro hm
    simp only [clarityRange, List.mem_range'] at hm
    obtain ⟨i, hi, he⟩ := hm
    omega
  · intro ⟨h1, h2⟩
    simp only [clarityRange, List.mem_range']
    exact ⟨m - a, by omega, by omega⟩

/-- C9: owner-index add is idempotent when the id is already present; when it
is absent it appends the id at the end, and it fails (capacity) exactly when
the sequence already holds `MAX-OWNER-DATASETS = 1000` (or more) entries. -/
theorem addDatasetToOwner_spec (s : RegistryState) (owner datasetId : Nat) :
    (datasetId ∈ getOwnerDatasetIds s owner →
      addDatasetToOwner s owner datasetId = some s) ∧
    (datasetId ∉ getOwnerDatasetIds s owner →
      (getOwnerDatasetIds s owner).length < 1000 →
      ∃ s', addDatasetToOwner s owner datasetId = some s' ∧
        getOwnerDatasetIds s' owner = getOwnerDatasetIds s owner ++ [datasetId]) ∧
    (datasetId ∉ getOwnerDatasetIds s owner →
      1000 ≤ (getOwnerDatasetIds s owner).length →
      addDatasetToOwner s owner datasetId = none) := by
  refine ⟨?_, ?_, ?_⟩
  · intro hmem
    simp [addDatasetToOwner, hmem]
  · intro hmem hlen
    refine ⟨{ s with datasetsByOwner := mapSet s.datasetsByOwner owner (getOwnerDatasetIds s owner ++ [datasetId]) }, ?_, ?_⟩
    · simp only [addDatasetToOwner, if_neg hmem]
      rw [if_pos]
      simp [MAX_OWNER_DATASETS]
      omega
    · simp [getOwnerDatasetIds, mapGet_mapSet_self]
  · intro hmem hlen
    simp only [addDatasetToOwner, if_neg hmem]
    rw [if_neg]
    simp [MAX_OWNER_DATASETS]
    omega

/-- C9 witness at concrete inputs: idempotent re-add, a real append, and a
capacity failure on a full (1000-entry) index. -/
theorem addDatasetToOwner_spec_witness :
    (addDatasetToOwner
        { datasets := [], datasetsByOwner := [(1, [5])], datasetCounter := 1,
          contractAdmin := 0, contractPaused := false } 1 5 = some
        { datasets := [], datasetsByOwner := [(1, [5])], datasetCounter := 1,
          contractAdmin := 0, contractPaused := false }) ∧
    (∃ s', addDatasetToOwner
        { datasets := [], datasetsByOwner := [(1, [5])], datasetCounter := 1,
          contractAdmin := 0, contractPaused := false } 1 6 = some s' ∧
        getOwnerDatasetIds s' 1 = [5] ++ [6]) ∧
    (addDatasetToOwner
        { datasets := [], datasetsByOwner := [(1, List.range 1000)],
          datasetCounter := 0, contractAdmin := 0, contractPaused := false }
        1 2000 = none) := by
  refine ⟨?_, ?_, ?_⟩
  · exact (addDatasetToOwner_spec _ 1 5).1 (by decide)
  · exact (addDatasetToOwner_spec _ 1 6).2.1 (by decide) (by decide)
  · refine (addDatasetToOwner_spec _ 1 2000).2.2 ?_ ?_
    · show 2000 ∉ getOwnerDatasetIds _ 1
      simp [getOwnerDatasetIds, mapGet, List.mem_range]
    · show 1000 ≤ (getOwnerDatasetIds _ 1).length
      simp [getOwnerDatasetIds, mapGet]

/-- C6: the validator returns `false` exactly when one of the listed defects
holds (empty `name`/`description`/`data-type`, zero `collection-date`,
inverted altitudes, latitude outside ±90_000_000, longitude outside
±180_000_000, or a status other than active/deprecated); the boundary values
are accepted, one micro-degree beyond is rejected, and an empty `ipfs-hash`
is accepted. -/
theorem validateFields_spec (name description dataType : String)
    (collectionDate altitudeMin altitudeMax : Nat)
    (latitude longitude : Int) (ipfsHash : String) (status : String) :
    (validateFields name description dataType collectionDate altitudeMin
        altitudeMax latitude longitude ipfsHash status = false ↔
      (name.length = 0 ∨ description.length = 0 ∨ dataType.length = 0 ∨
       collectionDate = 0 ∨ altitudeMax < altitudeMin ∨
       latitude < -90000000 ∨ 90000000 < latitude ∨
       longitude < -180000000 ∨ 180000000 < longitude ∨
       (status ≠ "active" ∧ status ≠ "deprecated"))) ∧
    validateFields "a" "d" "t" 1 0 0 90000000 0 "" "active" = true ∧
    validateFields "a" "d" "t" 1 0 0 90000001 0 "" "active" = false ∧
    validateFields "a" "d" "t" 1 0 0 (-90000000) 0 "" "active" = true ∧
    validateFields "a" "d" "t" 1 0 0 (-90000001) 0 "" "active" = false ∧
    validateFields "a" "d" "t" 1 0 0 0 180000000 "" "active" = true ∧
    validateFields "a" "d" "t" 1 0 0 0 180000001 "" "active" = false ∧
    validateFields "a" "d" "t" 1 0 0 0 (-180000000) "" "active" = true ∧
    validateFields "a" "d" "t" 1 0 0 0 (-180000001) "" "active" = false := by
  refine ⟨?_, by decide, by decide, by decide, by decide, by decide, by decide,
    by decide, by decide⟩
  constructor
  · rw [← Bool.not_eq_true]
    intro hfalse
    by_contra hdisj
    push_neg at hdisj
    obtain ⟨h1, h2, h3, h4, h5, h6, h7, h8, h9, h10⟩ := hdisj
    apply hfalse
    simp only [validateFields, isValidStatus, Bool.and_eq_true,
      Bool.or_eq_true, decide_eq_true_eq]
    refine ⟨by omega, ?_⟩
    by_cases ha : status = "active"
    · exact Or.inl ha
    · exact Or.inr (h10 ha)
  · intro hdisj
    rw [← Bool.not_eq_true]
    intro htrue
    simp only [validateFields, isValidStatus, Bool.and_eq_true,
      Bool.or_eq_true, decide_eq_true_eq] at htrue
    obtain ⟨tleft, t9⟩ := htrue
    rcases hdisj with h|h|h|h|h|h|h|h|h|h
    · omega
    · omega
    · omega
    · omega
    · omega
    · omega
    · omega
    · omega
    · omega
    · rcases t9 with h9|h9
      · exact h.1 h9
      · exact h.2 h9

/-- C5: the global id page is empty with no cursor when the counter is zero
or the offset is past it; otherwise it holds exactly the identifiers
`offset+1 .. min (offset + min limit MAX-PAGE-SIZE) counter` in strictly
increasing order, and the cursor is `some (offset + returned)` exactly when
`offset + returned < counter`. -/
theorem getDatasetIdsPage_spec (s : RegistryState) (offset limit : Nat) :
    (s.datasetCounter = 0 ∨ offset ≥ s.datasetCounter →
      getDatasetIdsPage s offset limit = ([], none)) ∧
    (offset < s.datasetCounter →
      (∀ k, k ∈ (getDatasetIdsPage s offset limit).1 ↔
        offset + 1 ≤ k ∧
          k ≤ min (offset + min limit MAX_PAGE_SIZE) s.datasetCounter) ∧
      (getDatasetIdsPage s offset limit).1.Pairwise (· < ·) ∧
      (getDatasetIdsPage s offset limit).1.length =
        min (offset + min limit MAX_PAGE_SIZE) s.datasetCounter - offset ∧
      (getDatasetIdsPage s offset limit).2 =
        (if offset + (getDatasetIdsPage s offset limit).1.length <
            s.datasetCounter
         then some (offset + (getDatasetIdsPage s offset limit).1.length)
         else none)) := by
  constructor
  · intro h
    simp only [getDatasetIdsPage]
    rw [if_pos (by omega)]
  · intro hoff
    have hcond : ¬ (s.datasetCounter = 0 ∨ offset ≥ s.datasetCounter) := by omega
    simp only [getDatasetIdsPage, if_neg hcond]
    have hsafe : (if limit > MAX_PAGE_SIZE then MAX_PAGE_SIZE else limit)
        = min limit MAX_PAGE_SIZE := by
      rw [Nat.min_def]
      split <;> split <;> omega
    rw [hsafe]
    have hlast : (if offset + min limit MAX_PAGE_SIZE > s.datasetCounter
          then s.datasetCounter else offset + min limit MAX_PAGE_SIZE)
        = min (offset + min limit MAX_PAGE_SIZE) s.datasetCounter := by
      rw [Nat.min_def]
      split <;> split <;> omega
    rw [hlast]
    refine ⟨?_, ?_, ?_, ?_⟩
    · intro k
      rw [mem_clarityRange]
      omega
    · exact List.pairwise_lt_range' ..
    · simp only [clarityRange, List.length_range']
      omega
    · simp only [pageNextOffset, clarityRange, List.length_range']

/-- C5 witness: counter 5, offset 1, limit 2 yields ids 2 and 3 with cursor 3;
offset past the counter yields the empty page. -/
theorem getDatasetIdsPage_spec_witness :
    (getDatasetIdsPage
      { datasets := [], datasetsByOwner := [], datasetCounter := 5,
        contractAdmin := 0, contractPaused := false } 7 2 = ([], none)) ∧
    ((2 ∈ (getDatasetIdsPage
      { datasets := [], datasetsByOwner := [], datasetCounter := 5,
        contractAdmin := 0, contractPaused := false } 1 2).1 ↔
        1 + 1 ≤ 2 ∧ 2 ≤ min (1 + min 2 MAX_PAGE_SIZE) 5) ∧
     (getDatasetIdsPage
      { datasets := [], datasetsByOwner := [], datasetCounter := 5,
        contractAdmin := 0, contractPaused := false } 1 2).1.length
        = min (1 + min 2 MAX_PAGE_SIZE) 5 - 1) := by
  refine ⟨?_, ?_, ?_⟩
  · exact (getDatasetIdsPage_spec _ 7 2).1 (by decide)
  · exact ((getDatasetIdsPage_spec _ 1 2).2 (by decide)).1 2
  · exact ((getDatasetIdsPage_spec _ 1 2).2 (by decide)).2.2.1

/-- C10: for an id that is not in the record store, `update-dataset-metadata`,
`freeze-dataset-metadata` and `transfer-dataset` return `NotFound` even while
the contract is paused: the existence lookup precedes the pause gate. -/
theorem notFound_precedes_pause (s : RegistryState)
    (sender datasetId newOwner : Nat)
    (name description dataType : String) (isPublic : Bool)
    (hpaused : s.contractPaused = true)
    (habsent : mapGet s.datasets datasetId = none) :
    updateDatasetMetadata s sender datasetId name description dataType isPublic
      = (.error .datasetNotFound, s) ∧
    freezeDatasetMetadata s sender datasetId = (.error .datasetNotFound, s) ∧
    transferDataset s sender datasetId newOwner
      = (.error .datasetNotFound, s) := by
  refine ⟨?_, ?_, ?_⟩ <;>
    simp [updateDatasetMetadata, freezeDatasetMetadata, transferDataset,
      habsent]

/-- C10 witness: a paused one-record registry queried at the absent id 7. -/
theorem notFound_precedes_pause_witness :
    updateDatasetMetadata
      { datasets := [], datasetsByOwner := [], datasetCounter := 0,
        contractAdmin := 0, contractPaused := true } 1 7 "n" "d" "t" true
      = (.error .datasetNotFound,
        { datasets := [], datasetsByOwner := [], datasetCounter := 0,
          contractAdmin := 0, contractPaused := true }) ∧
    freezeDatasetMetadata
      { datasets := [], datasetsByOwner := [], datasetCounter := 0,
        contractAdmin := 0, contractPaused := true } 1 7
      = (.error .datasetNotFound,
        { datasets := [], datasetsByOwner := [], datasetCounter := 0,
          contractAdmin := 0, contractPaused := true }) ∧
    transferDataset
      { datasets := [], datasetsByOwner := [], datasetCounter := 0,
        contractAdmin := 0, contractPaused := true } 1 7 2
      = (.error .datasetNotFound,
        { datasets := [], datasetsByOwner := [], datasetCounter := 0,
          contractAdmin := 0, contractPaused := true }) :=
  notFound_precedes_pause _ 1 7 2 "n" "d" "t" true (by decide) (by decide)

/-- C2: whenever a mutating operation returns an `err`, the whole registry
state is returned unchanged — in Clarity an `err` result of a public call
rolls back every write it made, which the embedding reproduces; in
particular a `transfer-dataset` whose owner-index insertion fails leaves the
record's owner and the old owner's index as they were. -/
theorem error_leaves_state_unchanged (s : RegistryState) (e : ContractError)
    (sender blockHeight datasetId newOwner owner createdAt : Nat)
    (name description dataType ipfsHash st : String)
    (collectionDate altitudeMin altitudeMax : Nat)
    (latitude longitude : Int) (isPublic mFrozen : Bool) :
    ((registerDataset s sender blockHeight name description dataType
        collectionDate altitudeMin altitudeMax latitude longitude ipfsHash
        isPublic).1 = .error e →
      (registerDataset s sender blockHeight name description dataType
        collectionDate altitudeMin altitudeMax latitude longitude ipfsHash
        isPublic).2 = s) ∧
    ((updateDatasetMetadata s sender datasetId name description dataType
        isPublic).1 = .error e →
      (updateDatasetMetadata s sender datasetId name description dataType
        isPublic).2 = s) ∧
    ((freezeDatasetMetadata s sender datasetId).1 = .error e →
      (freezeDatasetMetadata s sender datasetId).2 = s) ∧
    ((transferDataset s sender datasetId newOwner).1 = .error e →
      (transferDataset s sender datasetId newOwner).2 = s) ∧
    ((importDataset s sender datasetId owner name description dataType
        collectionDate altitudeMin altitudeMax latitude longitude ipfsHash
        isPublic mFrozen createdAt st).1 = .error e →
      (importDataset s sender datasetId owner name description dataType
        collectionDate altitudeMin altitudeMax latitude longitude ipfsHash
        isPublic mFrozen createdAt st).2 = s) := by
  refine ⟨?_, ?_, ?_, ?_, ?_⟩
  · simp only [registerDataset]
    repeat' split
    all_goals simp
  · simp only [updateDatasetMetadata]
    repeat' split
    all_goals simp
  · simp only [freezeDatasetMetadata]
    repeat' split
    all_goals simp
  · simp only [transferDataset]
    repeat' split
    all_goals simp
  · simp only [importDataset]
    repeat' split
    all_goals simp

/-- C2 witness: one concrete erroring call of each mutating operation leaves
the state it was called on intact. -/
theorem error_leaves_state_unchanged_witness :
    ((registerDataset
        { datasets := [], datasetsByOwner := [], datasetCounter := 0,
          contractAdmin := 0, contractPaused := true } 1 9 "n" "d" "t" 1 0 0 0 0
        "" true).2 =
      { datasets := [], datasetsByOwner := [], datasetCounter := 0,
        contractAdmin := 0, contractPaused := true }) ∧
    ((updateDatasetMetadata
        { datasets := [], datasetsByOwner := [], datasetCounter := 0,
          contractAdmin := 0, contractPaused := false } 1 7 "n" "d" "t"
        true).2 =
      { datasets := [], datasetsByOwner := [], datasetCounter := 0,
        contractAdmin := 0, contractPaused := false }) ∧
    ((freezeDatasetMetadata
        { datasets := [], datasetsByOwner := [], datasetCounter := 0,
          contractAdmin := 0, contractPaused := false } 1 7).2 =
      { datasets := [], datasetsByOwner := [], datasetCounter := 0,
        contractAdmin := 0, contractPaused := false }) ∧
    ((transferDataset
        { datasets := [], datasetsByOwner := [], datasetCounter := 0,
          contractAdmin := 0, contractPaused := false } 1 7 2).2 =
      { datasets := [], datasetsByOwner := [], datasetCounter := 0,
        contractAdmin := 0, contractPaused := false }) ∧
    ((importDataset
        { datasets := [], datasetsByOwner := [], datasetCounter := 0,
          contractAdmin := 0, contractPaused := false } 5 1 2 "n" "d" "t" 1 0 0
        0 0 "" true false 1 "active").2 =
      { datasets := [], datasetsByOwner := [], datasetCounter := 0,
        contractAdmin := 0, contractPaused := false }) := by
  refine ⟨?_, ?_, ?_, ?_, ?_⟩
  · exact (error_leaves_state_unchanged _ .contractPaused 1 9 7 2 2 1 "n" "d"
      "t" "" "active" 1 0 0 0 0 true false).1 rfl
  · exact (error_leaves_state_unchanged _ .datasetNotFound 1 9 7 2 2 1 "n" "d"
      "t" "" "active" 1 0 0 0 0 true false).2.1 rfl
  · exact (error_leaves_state_unchanged _ .datasetNotFound 1 9 7 2 2 1 "n" "d"
      "t" "" "active" 1 0 0 0 0 true false).2.2.1 rfl
  · exact (error_leaves_state_unchanged _ .datasetNotFound 1 9 7 2 2 1 "n" "d"
      "t" "" "active" 1 0 0 0 0 true false).2.2.2.1 rfl
  · exact (error_leaves_state_unchanged _ .notAuthorized 5 9 1 2 2 1 "n" "d"
      "t" "" "active" 1 0 0 0 0 true false).2.2.2.2 rfl

/-- C8: `update-dataset-metadata` fails `NotFound` on an absent id,
`NotAuthorized` for a non-owner, `MetadataFrozen` on a frozen record (for any
new values), `InvalidParams` when a text field is empty; on success it
replaces exactly `name`, `description`, `data-type` and `is-public` and keeps
every other field of the record. -/
theorem updateDatasetMetadata_spec (s : RegistryState) (sender datasetId : Nat)
    (name description dataType : String) (isPublic : Bool)
    (hpaused : s.contractPaused = false) :
    (mapGet s.datasets datasetId = none →
      updateDatasetMetadata s sender datasetId name description dataType
        isPublic = (.error .datasetNotFound, s)) ∧
    (∀ d, mapGet s.datasets datasetId = some d →
      (sender ≠ d.owner →
        updateDatasetMetadata s sender datasetId name description dataType
          isPublic = (.error .notAuthorized, s)) ∧
      (sender = d.owner → d.metadataFrozen = true →
        updateDatasetMetadata s sender datasetId name description dataType
          isPublic = (.error .metadataFrozen, s)) ∧
      (sender = d.owner → d.metadataFrozen = false →
        (name.length = 0 ∨ description.length = 0 ∨ dataType.length = 0) →
        updateDatasetMetadata s sender datasetId name description dataType
          isPublic = (.error .invalidParams, s)) ∧
      (sender = d.owner → d.metadataFrozen = false →
        1 ≤ name.length → 1 ≤ description.length → 1 ≤ dataType.length →
        (updateDatasetMetadata s sender datasetId name description dataType
            isPublic).1 = .ok true ∧
        ∃ d', mapGet (updateDatasetMetadata s sender datasetId name
            description dataType isPublic).2.datasets datasetId = some d' ∧
          d'.name = name ∧ d'.description = description ∧
          d'.dataType = dataType ∧ d'.isPublic = isPublic ∧
          d'.owner = d.owner ∧ d'.collectionDate = d.collectionDate ∧
          d'.altitudeMin = d.altitudeMin ∧ d'.altitudeMax = d.altitudeMax ∧
          d'.latitude = d.latitude ∧ d'.longitude = d.longitude ∧
          d'.ipfsHash = d.ipfsHash ∧ d'.metadataFrozen = d.metadataFrozen ∧
          d'.createdAt = d.createdAt ∧ d'.status = d.status)) := by
  constructor
  · intro habsent
    simp [updateDatasetMetadata, habsent]
  · intro d hd
    refine ⟨?_, ?_, ?_, ?_⟩
    · intro hne
      simp [updateDatasetMetadata, hd, checkNotPaused, hpaused,
        isDatasetOwner, hne]
    · intro hown hfroz
      simp [updateDatasetMetadata, hd, checkNotPaused, hpaused,
        isDatasetOwner, hown, hfroz]
    · intro hown hfroz hempty
      simp only [updateDatasetMetadata, hd, checkNotPaused, hpaused]
      rw [if_neg (by simp), if_neg (by simp [isDatasetOwner, hd, hown]),
        if_neg (by simp [hfroz]), if_pos (by omega)]
    · intro hown hfroz h1 h2 h3
      simp only [updateDatasetMetadata, hd, checkNotPaused, hpaused]
      rw [if_neg (by simp), if_neg (by simp [isDatasetOwner, hd, hown]),
        if_neg (by simp [hfroz]), if_neg (by omega)]
      exact ⟨rfl, { d with name := name, description := description, dataType := dataType, isPublic := isPublic },
        by simp [mapGet_mapSet_self], rfl, rfl, rfl, rfl, rfl, rfl, rfl, rfl,
        rfl, rfl, rfl, rfl, rfl, rfl⟩

/-- A concrete valid record owned by principal 1 (proof fixture). -/
def sampleRecord : Dataset :=
  { owner := 1, name := "n", description := "d", dataType := "t"
    collectionDate := 1, altitudeMin := 0, altitudeMax := 0
    latitude := 0, longitude := 0, ipfsHash := "", isPublic := true
    metadataFrozen := false, createdAt := 5, status := "active" }

/-- A one-record registry holding `sampleRecord` at id 1 (proof fixture). -/
def sampleState : RegistryState :=
  { datasets := [(1, sampleRecord)], datasetsByOwner := [(1, [1])]
    datasetCounter := 1, contractAdmin := 0, contractPaused := false }

/-- C8 witness: on a one-record registry, a non-owner update fails
`NotAuthorized` and an owner update of a non-frozen record succeeds. -/
theorem updateDatasetMetadata_spec_witness :
    updateDatasetMetadata sampleState 2 1 "x" "y" "z" false
      = (.error .notAuthorized, sampleState) ∧
    (updateDatasetMetadata sampleState 1 1 "x" "y" "z" false).1 = .ok true := by
  constructor
  · exact ((updateDatasetMetadata_spec sampleState 2 1 "x" "y" "z" false
      rfl).2 sampleRecord rfl).1 (by decide)
  · exact (((updateDatasetMetadata_spec sampleState 1 1 "x" "y" "z" false
      rfl).2 sampleRecord rfl).2.2.2 rfl rfl (by decide) (by decide)
      (by decide)).1

theorem getOwnerDatasetIds_congr (s s' : RegistryState) (o : Nat)
    (h : s'.datasetsByOwner = s.datasetsByOwner) :
    getOwnerDatasetIds s' o = getOwnerDatasetIds s o := by
  simp [getOwnerDatasetIds, h]

/-- Case analysis of `add-dataset-to-owner`: no-op success on a present id,
append on an absent id with room, capacity failure otherwise. -/
theorem addDatasetToOwner_cases (s : RegistryState) (o i : Nat) :
    (i ∈ getOwnerDatasetIds s o ∧ addDatasetToOwner s o i = some s) ∨
    (i ∉ getOwnerDatasetIds s o ∧
      (getOwnerDatasetIds s o).length + 1 ≤ 1000 ∧
      addDatasetToOwner s o i = some { s with datasetsByOwner := mapSet s.datasetsByOwner o (getOwnerDatasetIds s o ++ [i]) }) ∨
    (i ∉ getOwnerDatasetIds s o ∧
      1000 < (getOwnerDatasetIds s o).length + 1 ∧
      addDatasetToOwner s o i = none) := by
  by_cases hm : i ∈ getOwnerDatasetIds s o
  · exact Or.inl ⟨hm, by simp [addDatasetToOwner, hm]⟩
  · by_cases hl : (getOwnerDatasetIds s o).length + 1 ≤ 1000
    · refine Or.inr (Or.inl ⟨hm, hl, ?_⟩)
      simp only [addDatasetToOwner, if_neg hm]
      rw [if_pos (by simp [MAX_OWNER_DATASETS]; omega)]
    · refine Or.inr (Or.inr ⟨hm, by omega, ?_⟩)
      simp only [addDatasetToOwner, if_neg hm]
      rw [if_neg (by simp [MAX_OWNER_DATASETS]; omega)]

/-- C7: an admin-called `import-dataset` on an unpaused registry fails
`InvalidParams` for id 0 or invalid fields, `AlreadyExists` for a present id,
and on success writes the caller-supplied record verbatim (including
`created-at`, `status`, `metadata-frozen`), adds the id to the owner's index
and sets the counter to `max counter id`. -/
theorem importDataset_spec (s : RegistryState) (sender datasetId owner : Nat)
    (name description dataType : String)
    (collectionDate altitudeMin altitudeMax : Nat)
    (latitude longitude : Int) (ipfsHash : String)
    (isPublic mFrozen : Bool) (createdAt : Nat) (st : String)
    (hadmin : sender = s.contractAdmin) (hpaused : s.contractPaused = false) :
    (datasetId = 0 →
      importDataset s sender datasetId owner name description dataType
        collectionDate altitudeMin altitudeMax latitude longitude ipfsHash
        isPublic mFrozen createdAt st = (.error .invalidParams, s)) ∧
    (datasetId ≠ 0 → (mapGet s.datasets datasetId).isSome →
      importDataset s sender datasetId owner name description dataType
        collectionDate altitudeMin altitudeMax latitude longitude ipfsHash
        isPublic mFrozen createdAt st = (.error .datasetExists, s)) ∧
    (datasetId ≠ 0 → mapGet s.datasets datasetId = none →
      validateFields name description dataType collectionDate altitudeMin
        altitudeMax latitude longitude ipfsHash st = false →
      importDataset s sender datasetId owner name description dataType
        collectionDate altitudeMin altitudeMax latitude longitude ipfsHash
        isPublic mFrozen createdAt st = (.error .invalidParams, s)) ∧
    (datasetId ≠ 0 → mapGet s.datasets datasetId = none →
      validateFields name description dataType collectionDate altitudeMin
        altitudeMax latitude longitude ipfsHash st = true →
      (datasetId ∈ getOwnerDatasetIds s owner ∨
        (getOwnerDatasetIds s owner).length < 1000) →
      (importDataset s sender datasetId owner name description dataType
        collectionDate altitudeMin altitudeMax latitude longitude ipfsHash
        isPublic mFrozen createdAt st).1 = .ok datasetId ∧
      (∃ d', mapGet (importDataset s sender datasetId owner name description
          dataType collectionDate altitudeMin altitudeMax latitude longitude
          ipfsHash isPublic mFrozen createdAt st).2.datasets datasetId
          = some d' ∧
        d'.owner = owner ∧ d'.name = name ∧ d'.description = description ∧
        d'.dataType = dataType ∧ d'.collectionDate = collectionDate ∧
        d'.altitudeMin = altitudeMin ∧ d'.altitudeMax = altitudeMax ∧
        d'.latitude = latitude ∧ d'.longitude = longitude ∧
        d'.ipfsHash = ipfsHash ∧ d'.isPublic = isPublic ∧
        d'.metadataFrozen = mFrozen ∧ d'.createdAt = createdAt ∧
        d'.status = st) ∧
      datasetId ∈ getOwnerDatasetIds (importDataset s sender datasetId owner
        name description dataType collectionDate altitudeMin altitudeMax
        latitude longitude ipfsHash isPublic mFrozen createdAt st).2 owner ∧
      (importDataset s sender datasetId owner name description dataType
        collectionDate altitudeMin altitudeMax latitude longitude ipfsHash
        isPublic mFrozen createdAt st).2.datasetCounter
        = max s.datasetCounter datasetId) := by
  refine ⟨?_, ?_, ?_, ?_⟩
  · intro h0
    simp [importDataset, hadmin, checkNotPaused, hpaused, h0]
  · intro h0 hsome
    simp only [importDataset, hadmin, checkNotPaused, hpaused]
    rw [if_neg (by simp), if_neg (by simp), if_neg h0, if_pos hsome]
  · intro h0 habsent hval
    simp only [importDataset, hadmin, checkNotPaused, hpaused]
    rw [if_neg (by simp), if_neg (by simp), if_neg h0,
      if_neg (by simp [habsent]), if_pos (by simp [hval])]
  · intro h0 habsent hval hroom
    simp only [importDataset]
    rw [if_neg (by simp [hadmin]),
      if_neg (by simp [checkNotPaused, hpaused]), if_neg h0,
      if_neg (by simp [habsent]), if_neg (by simp [hval])]
    rcases addDatasetToOwner_cases { s with datasets := mapSet s.datasets datasetId { owner := owner, name := name, description := description, dataType := dataType, collectionDate := collectionDate, altitudeMin := altitudeMin, altitudeMax := altitudeMax, latitude := latitude, longitude := longitude, ipfsHash := ipfsHash, isPublic := isPublic, metadataFrozen := mFrozen, createdAt := createdAt, status := st } } owner datasetId
      with ⟨hm, he⟩ | ⟨hm, hl, he⟩ | ⟨hm, hl, he⟩
    · rw [he]
      dsimp only
      have hm' : datasetId ∈ getOwnerDatasetIds s owner := hm
      by_cases hgt : datasetId > s.datasetCounter
      · refine ⟨rfl, ⟨⟨owner, name, description, dataType, collectionDate,
          altitudeMin, altitudeMax, latitude, longitude, ipfsHash, isPublic,
          mFrozen, createdAt, st⟩, ?_, rfl, rfl, rfl, rfl, rfl, rfl, rfl, rfl,
          rfl, rfl, rfl, rfl, rfl, rfl⟩, ?_, ?_⟩
        · rw [if_pos hgt]
          exact mapGet_mapSet_self s.datasets datasetId _
        · rw [if_pos hgt]
          exact hm'
        · rw [if_pos hgt]
          show datasetId = max s.datasetCounter datasetId
          omega
      · refine ⟨rfl, ⟨⟨owner, name, description, dataType, collectionDate,
          altitudeMin, altitudeMax, latitude, longitude, ipfsHash, isPublic,
          mFrozen, createdAt, st⟩, ?_, rfl, rfl, rfl, rfl, rfl, rfl, rfl, rfl,
          rfl, rfl, rfl, rfl, rfl, rfl⟩, ?_, ?_⟩
        · rw [if_neg hgt]
          exact mapGet_mapSet_self s.datasets datasetId _
        · rw [if_neg hgt]
          exact hm'
        · rw [if_neg hgt]
          show s.datasetCounter = max s.datasetCounter datasetId
          omega
    · rw [he]
      dsimp only
      by_cases hgt : datasetId > s.datasetCounter
      · refine ⟨rfl, ⟨⟨owner, name, description, dataType, collectionDate,
          altitudeMin, altitudeMax, latitude, longitude, ipfsHash, isPublic,
          mFrozen, createdAt, st⟩, ?_, rfl, rfl, rfl, rfl, rfl, rfl, rfl, rfl,
          rfl, rfl, rfl, rfl, rfl, rfl⟩, ?_, ?_⟩
        · rw [if_pos hgt]
          exact mapGet_mapSet_self s.datasets datasetId _
        · rw [if_pos hgt]
          simp [getOwnerDatasetIds, mapGet_mapSet_self]
        · rw [if_pos hgt]
          show datasetId = max s.datasetCounter datasetId
          omega
      · refine ⟨rfl, ⟨⟨owner, name, description, dataType, collectionDate,
          altitudeMin, altitudeMax, latitude, longitude, ipfsHash, isPublic,
          mFrozen, createdAt, st⟩, ?_, rfl, rfl, rfl, rfl, rfl, rfl, rfl, rfl,
          rfl, rfl, rfl, rfl, rfl, rfl⟩, ?_, ?_⟩
        · rw [if_neg hgt]
          exact mapGet_mapSet_self s.datasets datasetId _
        · rw [if_neg hgt]
          simp [getOwnerDatasetIds, mapGet_mapSet_self]
        · rw [if_neg hgt]
          show s.datasetCounter = max s.datasetCounter datasetId
          omega
    · exfalso
      have hm' : datasetId ∉ getOwnerDatasetIds s owner := hm
      have hl' : 1000 < (getOwnerDatasetIds s owner).length + 1 := hl
      rcases hroom with h | h
      · exact hm' h
      · omega

/-- Registry with counter 10, no records and admin 0 (proof fixture). -/
def counterTenState : RegistryState :=
  { datasets := [], datasetsByOwner := [], datasetCounter := 10
    contractAdmin := 0, contractPaused := false }

/-- C7 witness: the admin imports id 50 into a registry whose counter is 10;
the call succeeds and the counter jumps to `max 10 50 = 50`. -/
theorem importDataset_spec_witness :
    (importDataset counterTenState 0 50 3 "n" "d" "t" 1 0 0
      0 0 "" true false 7 "active").1 = .ok 50 ∧
    (importDataset counterTenState 0 50 3 "n" "d" "t" 1 0 0
      0 0 "" true false 7 "active").2.datasetCounter = max 10 50 := by
  constructor
  · exact ((importDataset_spec counterTenState 0 50 3 "n" "d" "t" 1 0 0 0 0 ""
      true false 7 "active" rfl rfl).2.2.2 (by decide) rfl (by decide)
      (Or.inr (by decide))).1
  · exact ((importDataset_spec counterTenState 0 50 3 "n" "d" "t" 1 0 0 0 0 ""
      true false 7 "active" rfl rfl).2.2.2 (by decide) rfl (by decide)
      (Or.inr (by decide))).2.2.2

theorem filter_ne_of_not_mem (l : List Nat) (i : Nat) (h : i ∉ l) :
    l.filter (fun x => x ≠ i) = l := by
  induction l with
  | nil => rfl
  | cons hd tl ih =>
    simp only [List.mem_cons, not_or] at h
    simp [List.filter_cons, Ne.symm h.1]
    intro a ha hai
    exact h.2 (hai ▸ ha)

theorem getOwnerDatasetIds_setDatasets (s : RegistryState)
    (ds : List (Nat × Dataset)) (o : Nat) :
    getOwnerDatasetIds { s with datasets := ds } o = getOwnerDatasetIds s o :=
  rfl

theorem getOwnerDatasetIds_mapSet_self (t : RegistryState) (o : Nat)
    (L : List Nat) :
    getOwnerDatasetIds { t with datasetsByOwner := mapSet t.datasetsByOwner o L } o = L := by
  simp [getOwnerDatasetIds, mapGet_mapSet_self]

theorem getOwnerDatasetIds_mapSet_ne (t : RegistryState) (o' o : Nat)
    (L : List Nat) (h : o ≠ o') :
    getOwnerDatasetIds { t with datasetsByOwner := mapSet t.datasetsByOwner o' L } o = getOwnerDatasetIds t o := by
  simp [getOwnerDatasetIds, mapGet_mapSet_ne _ _ _ _ h]

/-- C4: a successful transfer by the owner rewrites the record's owner to
`new-owner` (all other fields kept), removes the id from the old owner's
index exactly once keeping the remaining ids in their relative order, and
appends it once at the end of the new owner's index. -/
theorem transferDataset_spec (s : RegistryState)
    (sender datasetId newOwner : Nat) (d : Dataset) (l1 l2 : List Nat)
    (hd : mapGet s.datasets datasetId = some d)
    (hsender : sender = d.owner)
    (hpaused : s.contractPaused = false)
    (hsplit : getOwnerDatasetIds s d.owner = l1 ++ datasetId :: l2)
    (h1 : datasetId ∉ l1) (h2 : datasetId ∉ l2)
    (hne : newOwner ≠ d.owner)
    (hnmem : datasetId ∉ getOwnerDatasetIds s newOwner)
    (hnlen : (getOwnerDatasetIds s newOwner).length < 1000) :
    (transferDataset s sender datasetId newOwner).1 = .ok true ∧
    (∃ d', mapGet (transferDataset s sender datasetId newOwner).2.datasets
        datasetId = some d' ∧
      d'.owner = newOwner ∧ d'.name = d.name ∧
      d'.description = d.description ∧ d'.dataType = d.dataType ∧
      d'.collectionDate = d.collectionDate ∧
      d'.altitudeMin = d.altitudeMin ∧ d'.altitudeMax = d.altitudeMax ∧
      d'.latitude = d.latitude ∧ d'.longitude = d.longitude ∧
      d'.ipfsHash = d.ipfsHash ∧ d'.isPublic = d.isPublic ∧
      d'.metadataFrozen = d.metadataFrozen ∧ d'.createdAt = d.createdAt ∧
      d'.status = d.status) ∧
    getOwnerDatasetIds (transferDataset s sender datasetId newOwner).2 d.owner
      = l1 ++ l2 ∧
    getOwnerDatasetIds (transferDataset s sender datasetId newOwner).2
      newOwner = getOwnerDatasetIds s newOwner ++ [datasetId] := by
  simp only [transferDataset, hd]
  rw [if_neg (by simp [checkNotPaused, hpaused]),
    if_neg (by simp [isDatasetOwner, hd, hsender])]
  rcases addDatasetToOwner_cases (removeDatasetFromOwner { s with datasets := mapSet s.datasets datasetId { d with owner := newOwner } } d.owner datasetId) newOwner datasetId
    with ⟨hm, he⟩ | ⟨hm, hl, he⟩ | ⟨hm, hl, he⟩
  · exfalso
    rw [removeDatasetFromOwner_ids_ne _ _ _ _ hne,
      getOwnerDatasetIds_setDatasets] at hm
    exact hnmem hm
  · rw [he]
    dsimp only
    refine ⟨rfl, ⟨{ d with owner := newOwner }, ?_, rfl, rfl, rfl, rfl, rfl,
      rfl, rfl, rfl, rfl, rfl, rfl, rfl, rfl, rfl⟩, ?_, ?_⟩
    · exact mapGet_mapSet_self s.datasets datasetId _
    · rw [getOwnerDatasetIds_mapSet_ne _ _ _ _ (Ne.symm hne),
        removeDatasetFromOwner_ids, getOwnerDatasetIds_setDatasets, hsplit]
      simp only [List.filter_append, List.filter_cons]
      rw [filter_ne_of_not_mem l1 datasetId h1,
        filter_ne_of_not_mem l2 datasetId h2]
      simp
    · rw [getOwnerDatasetIds_mapSet_self,
        removeDatasetFromOwner_ids_ne _ _ _ _ hne,
        getOwnerDatasetIds_setDatasets]
  · exfalso
    rw [removeDatasetFromOwner_ids_ne _ _ _ _ hne,
      getOwnerDatasetIds_setDatasets] at hl
    omega

/-- Registry where principal 1 owns `sampleRecord` at id 1 and its index also
lists ids 4 and 9 around it (proof fixture). -/
def transferFixture : RegistryState :=
  { datasets := [(1, sampleRecord)], datasetsByOwner := [(1, [4, 1, 9])]
    datasetCounter := 9, contractAdmin := 0, contractPaused := false }

/-- C4 witness: transferring id 1 from owner 1 (index `[4, 1, 9]`) to owner 2
succeeds, leaves `[4, 9]` in order for owner 1 and appends `[1]` for
owner 2. -/
theorem transferDataset_spec_witness :
    (transferDataset transferFixture 1 1 2).1 = .ok true ∧
    getOwnerDatasetIds (transferDataset transferFixture 1 1 2).2 1
      = [4] ++ [9] ∧
    getOwnerDatasetIds (transferDataset transferFixture 1 1 2).2 2
      = [] ++ [1] := by
  refine ⟨?_, ?_, ?_⟩
  · exact (transferDataset_spec transferFixture 1 1 2 sampleRecord [4] [9]
      rfl rfl rfl rfl (by decide) (by decide) (by decide) (by decide)
      (by decide)).1
  · exact (transferDataset_spec transferFixture 1 1 2 sampleRecord [4] [9]
      rfl rfl rfl rfl (by decide) (by decide) (by decide) (by decide)
      (by decide)).2.2.1
  · exact (transferDataset_spec transferFixture 1 1 2 sampleRecord [4] [9]
      rfl rfl rfl rfl (by decide) (by decide) (by decide) (by decide)
      (by decide)).2.2.2

/-- C1 counterexample: `check-not-paused` never looks at the caller, so even
the admin is stopped by the pause gate — an admin-called `import-dataset` on
a paused registry fails `ContractPaused`, and so does an admin-called
`register-dataset`. -/
theorem admin_pause_bypass_counterexample :
    (importDataset
      { datasets := [], datasetsByOwner := [], datasetCounter := 0,
        contractAdmin := 0, contractPaused := true } 0 1 1 "n" "d" "t" 1 0 0
      0 0 "" true false 1 "active").1 = .error .contractPaused ∧
    (registerDataset
      { datasets := [], datasetsByOwner := [], datasetCounter := 0,
        contractAdmin := 0, contractPaused := true } 0 1 "n" "d" "t" 1 0 0
      0 0 "" true).1 = .error .contractPaused := by
  constructor <;> rfl

/-- C1 (amended): the pause gate applies to every caller, the admin
included — while `paused = true`, `register-dataset` and (after its admin
check) `import-dataset` fail `ContractPaused`, and `update`, `freeze` and
`transfer` fail `ContractPaused` for every existing id. -/
theorem pause_gate_applies_to_admin (s : RegistryState)
    (sender blockHeight datasetId newOwner owner createdAt : Nat)
    (name description dataType ipfsHash st : String)
    (collectionDate altitudeMin altitudeMax : Nat)
    (latitude longitude : Int) (isPublic mFrozen : Bool)
    (hpaused : s.contractPaused = true) :
    (registerDataset s sender blockHeight name description dataType
      collectionDate altitudeMin altitudeMax latitude longitude ipfsHash
      isPublic = (.error .contractPaused, s)) ∧
    (sender = s.contractAdmin →
      importDataset s sender datasetId owner name description dataType
        collectionDate altitudeMin altitudeMax latitude longitude ipfsHash
        isPublic mFrozen createdAt st = (.error .contractPaused, s)) ∧
    (∀ d, mapGet s.datasets datasetId = some d →
      updateDatasetMetadata s sender datasetId name description dataType
        isPublic = (.error .contractPaused, s) ∧
      freezeDatasetMetadata s sender datasetId
        = (.error .contractPaused, s) ∧
      transferDataset s sender datasetId newOwner
        = (.error .contractPaused, s)) := by
  refine ⟨?_, ?_, ?_⟩
  · simp [registerDataset, checkNotPaused, hpaused]
  · intro hadmin
    simp [importDataset, hadmin, checkNotPaused, hpaused]
  · intro d hd
    refine ⟨?_, ?_, ?_⟩ <;>
      simp [updateDatasetMetadata, freezeDatasetMetadata, transferDataset,
        hd, checkNotPaused, hpaused]

/-- Paused one-record registry (proof fixture). -/
def pausedFixture : RegistryState :=
  { datasets := [(1, sampleRecord)], datasetsByOwner := [(1, [1])]
    datasetCounter := 1, contractAdmin := 0, contractPaused := true }

/-- C1 (amended) witness: a paused one-record registry rejects the admin's
register and the owner's freeze, both with `ContractPaused`. -/
theorem pause_gate_applies_to_admin_witness :
    registerDataset pausedFixture 0 9 "n" "d" "t" 1 0 0 0 0 "" true
      = (.error .contractPaused, pausedFixture) ∧
    freezeDatasetMetadata pausedFixture 0 1
      = (.error .contractPaused, pausedFixture) := by
  constructor
  · exact (pause_gate_applies_to_admin pausedFixture 0 9 1 2 1 7 "n" "d" "t"
      "" "active" 1 0 0 0 0 true false rfl).1
  · exact ((pause_gate_applies_to_admin pausedFixture 0 9 1 2 1 7 "n" "d" "t"
      "" "active" 1 0 0 0 0 true false rfl).2.2 sampleRecord rfl).2.1

theorem addDatasetToOwner_frame (s s' : RegistryState) (o i : Nat)
    (h : addDatasetToOwner s o i = some s') :
    s'.datasets = s.datasets ∧ s'.datasetCounter = s.datasetCounter := by
  rcases addDatasetToOwner_cases s o i with ⟨_, he⟩ | ⟨_, _, he⟩ | ⟨_, _, he⟩ <;>
    rw [he] at h
  · injection h with h
    subst h
    exact ⟨rfl, rfl⟩
  · injection h with h
    subst h
    exact ⟨rfl, rfl⟩
  · cases h

/-- `register-dataset` either rolls back or writes one record at key
`counter + 1` and advances the counter to it. -/
theorem registerDataset_state_cases (s : RegistryState)
    (sender blockHeight : Nat) (name description dataType : String)
    (collectionDate altitudeMin altitudeMax : Nat)
    (latitude longitude : Int) (ipfsHash : String) (isPublic : Bool) :
    (registerDataset s sender blockHeight name description dataType
      collectionDate altitudeMin altitudeMax latitude longitude ipfsHash
      isPublic).2 = s ∨
    (∃ r, (registerDataset s sender blockHeight name description dataType
        collectionDate altitudeMin altitudeMax latitude longitude ipfsHash
        isPublic).2.datasets = mapSet s.datasets (s.datasetCounter + 1) r ∧
      (registerDataset s sender blockHeight name description dataType
        collectionDate altitudeMin altitudeMax latitude longitude ipfsHash
        isPublic).2.datasetCounter = s.datasetCounter + 1) := by
  simp only [registerDataset]
  split
  · exact Or.inl rfl
  · split
    · exact Or.inl rfl
    · split
      · exact Or.inl rfl
      · next s2 heq =>
        exact Or.inr ⟨_, (addDatasetToOwner_frame _ _ _ _ heq).1, rfl⟩

/-- `update-dataset-metadata` either rolls back or rewrites the target record
in place, keeping its `metadata-frozen` flag and the counter. -/
theorem updateDatasetMetadata_state_cases (s : RegistryState)
    (sender datasetId : Nat) (name description dataType : String)
    (isPublic : Bool) :
    (updateDatasetMetadata s sender datasetId name description dataType
      isPublic).2 = s ∨
    (∃ d r, mapGet s.datasets datasetId = some d ∧
      (updateDatasetMetadata s sender datasetId name description dataType
        isPublic).2.datasets = mapSet s.datasets datasetId r ∧
      r.metadataFrozen = d.metadataFrozen ∧
      (updateDatasetMetadata s sender datasetId name description dataType
        isPublic).2.datasetCounter = s.datasetCounter) := by
  simp only [updateDatasetMetadata]
  split
  · exact Or.inl rfl
  · next d hget =>
    split
    · exact Or.inl rfl
    · split
      · exact Or.inl rfl
      · split
        · exact Or.inl rfl
        · split
          · exact Or.inl rfl
          · exact Or.inr ⟨d, _, hget, rfl, rfl, rfl⟩

/-- `freeze-dataset-metadata` either rolls back or rewrites the target record
with `metadata-frozen = true`, keeping the counter. -/
theorem freezeDatasetMetadata_state_cases (s : RegistryState)
    (sender datasetId : Nat) :
    (freezeDatasetMetadata s sender datasetId).2 = s ∨
    (∃ d r, mapGet s.datasets datasetId = some d ∧
      (freezeDatasetMetadata s sender datasetId).2.datasets
        = mapSet s.datasets datasetId r ∧
      r.metadataFrozen = true ∧
      (freezeDatasetMetadata s sender datasetId).2.datasetCounter
        = s.datasetCounter) := by
  simp only [freezeDatasetMetadata]
  split
  · exact Or.inl rfl
  · next d hget =>
    split
    · exact Or.inl rfl
    · split
      · exact Or.inl rfl
      · exact Or.inr ⟨d, _, hget, rfl, rfl, rfl⟩

/-- `transfer-dataset` either rolls back or rewrites the target record in
place (owner change only), keeping its `metadata-frozen` flag and the
counter. -/
theorem transferDataset_state_cases (s : RegistryState)
    (sender datasetId newOwner : Nat) :
    (transferDataset s sender datasetId newOwner).2 = s ∨
    (∃ d r, mapGet s.datasets datasetId = some d ∧
      (transferDataset s sender datasetId newOwner).2.datasets
        = mapSet s.datasets datasetId r ∧
      r.metadataFrozen = d.metadataFrozen ∧
      (transferDataset s sender datasetId newOwner).2.datasetCounter
        = s.datasetCounter) := by
  simp only [transferDataset]
  split
  · exact Or.inl rfl
  · next d hget =>
    split
    · exact Or.inl rfl
    · split
      · exact Or.inl rfl
      · split
        · exact Or.inl rfl
        · next s3 heq =>
          exact Or.inr ⟨d, _, hget,
            (addDatasetToOwner_frame _ _ _ _ heq).1, rfl,
            (addDatasetToOwner_frame _ _ _ _ heq).2⟩

/-- `import-dataset` either rolls back or writes one record at a previously
absent key and sets the counter to `max counter id`. -/
theorem importDataset_state_cases (s : RegistryState)
    (sender datasetId owner : Nat) (name description dataType : String)
    (collectionDate altitudeMin altitudeMax : Nat)
    (latitude longitude : Int) (ipfsHash : String)
    (isPublic mFrozen : Bool) (createdAt : Nat) (st : String) :
    (importDataset s sender datasetId owner name description dataType
      collectionDate altitudeMin altitudeMax latitude longitude ipfsHash
      isPublic mFrozen createdAt st).2 = s ∨
    (∃ r, mapGet s.datasets datasetId = none ∧
      (importDataset s sender datasetId owner name description dataType
        collectionDate altitudeMin altitudeMax latitude longitude ipfsHash
        isPublic mFrozen createdAt st).2.datasets
        = mapSet s.datasets datasetId r ∧
      (importDataset s sender datasetId owner name description dataType
        collectionDate altitudeMin altitudeMax latitude longitude ipfsHash
        isPublic mFrozen createdAt st).2.datasetCounter
        = max s.datasetCounter datasetId) := by
  simp only [importDataset]
  split
  · exact Or.inl rfl
  · split
    · exact Or.inl rfl
    · split
      · exact Or.inl rfl
      · split
        · exact Or.inl rfl
        · next habsent =>
          split
          · exact Or.inl rfl
          · split
            · exact Or.inl rfl
            · next s2 heq =>
              refine Or.inr ⟨{ owner := owner, name := name, description := description, dataType := dataType, collectionDate := collectionDate, altitudeMin := altitudeMin, altitudeMax := altitudeMax, latitude := latitude, longitude := longitude, ipfsHash := ipfsHash, isPublic := isPublic, metadataFrozen := mFrozen, createdAt := createdAt, status := st }, ?_, ?_, ?_⟩
              · simpa using habsent
              · split <;> exact (addDatasetToOwner_frame _ _ _ _ heq).1
              · have hc : s2.datasetCounter = s.datasetCounter :=
                  (addDatasetToOwner_frame _ _ _ _ heq).2
                split
                · next hgt =>
                  rw [hc] at hgt
                  show datasetId = max s.datasetCounter datasetId
                  omega
                · next hle =>
                  rw [hc] at hle
                  rw [hc]
                  omega

theorem setContractAdmin_state_frame (s : RegistryState) (a b : Nat) :
    (setContractAdmin s a b).2.datasets = s.datasets ∧
    (setContractAdmin s a b).2.datasetCounter = s.datasetCounter := by
  simp only [setContractAdmin]
  split <;> exact ⟨rfl, rfl⟩

theorem setPaused_state_frame (s : RegistryState) (a : Nat) (p : Bool) :
    (setPaused s a p).2.datasets = s.datasets ∧
    (setPaused s a p).2.datasetCounter = s.datasetCounter := by
  simp only [setPaused]
  split <;> exact ⟨rfl, rfl⟩

theorem counterInv_step (s s' : RegistryState) (hstep : Step s s')
    (hinv : CounterInv s) : CounterInv s' := by
  cases hstep with
  | register sender blockHeight name description dataType collectionDate
      altitudeMin altitudeMax latitude longitude ipfsHash isPublic s0 =>
    rcases registerDataset_state_cases s sender blockHeight name description
      dataType collectionDate altitudeMin altitudeMax latitude longitude
      ipfsHash isPublic with he | ⟨r, hds, hc⟩
    · rw [he]
      exact hinv
    · intro id dd hget
      rw [hds] at hget
      rw [hc]
      by_cases hid : id = s.datasetCounter + 1
      · omega
      · rw [mapGet_mapSet_ne _ _ _ _ hid] at hget
        have := hinv id dd hget
        omega
  | update sender datasetId name description dataType isPublic s0 =>
    rcases updateDatasetMetadata_state_cases s sender datasetId name
      description dataType isPublic with he | ⟨d, r, hget, hds, hfr, hc⟩
    · rw [he]
      exact hinv
    · intro id dd hg
      rw [hds] at hg
      rw [hc]
      by_cases hid : id = datasetId
      · subst hid
        exact hinv id d hget
      · rw [mapGet_mapSet_ne _ _ _ _ hid] at hg
        exact hinv id dd hg
  | freeze sender datasetId s0 =>
    rcases freezeDatasetMetadata_state_cases s sender datasetId
      with he | ⟨d, r, hget, hds, hfr, hc⟩
    · rw [he]
      exact hinv
    · intro id dd hg
      rw [hds] at hg
      rw [hc]
      by_cases hid : id = datasetId
      · subst hid
        exact hinv id d hget
      · rw [mapGet_mapSet_ne _ _ _ _ hid] at hg
        exact hinv id dd hg
  | transfer sender datasetId newOwner s0 =>
    rcases transferDataset_state_cases s sender datasetId newOwner
      with he | ⟨d, r, hget, hds, hfr, hc⟩
    · rw [he]
      exact hinv
    · intro id dd hg
      rw [hds] at hg
      rw [hc]
      by_cases hid : id = datasetId
      · subst hid
        exact hinv id d hget
      · rw [mapGet_mapSet_ne _ _ _ _ hid] at hg
        exact hinv id dd hg
  | importStep sender datasetId owner name description dataType collectionDate
      altitudeMin altitudeMax latitude longitude ipfsHash isPublic mFrozen
      createdAt st s0 =>
    rcases importDataset_state_cases s sender datasetId owner name description
      dataType collectionDate altitudeMin altitudeMax latitude longitude
      ipfsHash isPublic mFrozen createdAt st with he | ⟨r, habs, hds, hc⟩
    · rw [he]
      exact hinv
    · intro id dd hg
      rw [hds] at hg
      rw [hc]
      by_cases hid : id = datasetId
      · omega
      · rw [mapGet_mapSet_ne _ _ _ _ hid] at hg
        have := hinv id dd hg
        omega
  | setAdmin sender newAdmin s0 =>
    intro id dd hg
    rw [(setContractAdmin_state_frame s sender newAdmin).1] at hg
    rw [(setContractAdmin_state_frame s sender newAdmin).2]
    exact hinv id dd hg
  | setPausedStep sender paused s0 =>
    intro id dd hg
    rw [(setPaused_state_frame s sender paused).1] at hg
    rw [(setPaused_state_frame s sender paused).2]
    exact hinv id dd hg

theorem frozenAt_step (s s' : RegistryState) (i : Nat) (hstep : Step s s')
    (hinv : CounterInv s) (hfro : FrozenAt s i) : FrozenAt s' i := by
  obtain ⟨df, hdf, hffro⟩ := hfro
  cases hstep with
  | register sender blockHeight name description dataType collectionDate
      altitudeMin altitudeMax latitude longitude ipfsHash isPublic s0 =>
    rcases registerDataset_state_cases s sender blockHeight name description
      dataType collectionDate altitudeMin altitudeMax latitude longitude
      ipfsHash isPublic with he | ⟨r, hds, hc⟩
    · rw [he]
      exact ⟨df, hdf, hffro⟩
    · refine ⟨df, ?_, hffro⟩
      rw [hds]
      have hne : i ≠ s.datasetCounter + 1 := by
        have := hinv i df hdf
        omega
      rw [mapGet_mapSet_ne _ _ _ _ hne]
      exact hdf
  | update sender datasetId name description dataType isPublic s0 =>
    rcases updateDatasetMetadata_state_cases s sender datasetId name
      description dataType isPublic with he | ⟨d, r, hget, hds, hfr, hc⟩
    · rw [he]
      exact ⟨df, hdf, hffro⟩
    · by_cases hit : i = datasetId
      · subst hit
        rw [hget] at hdf
        injection hdf with hdeq
        refine ⟨r, ?_, ?_⟩
        · rw [hds]
          exact mapGet_mapSet_self s.datasets i r
        · rw [hfr, hdeq]
          exact hffro
      · refine ⟨df, ?_, hffro⟩
        rw [hds, mapGet_mapSet_ne _ _ _ _ hit]
        exact hdf
  | freeze sender datasetId s0 =>
    rcases freezeDatasetMetadata_state_cases s sender datasetId
      with he | ⟨d, r, hget, hds, hfr, hc⟩
    · rw [he]
      exact ⟨df, hdf, hffro⟩
    · by_cases hit : i = datasetId
      · subst hit
        refine ⟨r, ?_, hfr⟩
        rw [hds]
        exact mapGet_mapSet_self s.datasets i r
      · refine ⟨df, ?_, hffro⟩
        rw [hds, mapGet_mapSet_ne _ _ _ _ hit]
        exact hdf
  | transfer sender datasetId newOwner s0 =>
    rcases transferDataset_state_cases s sender datasetId newOwner
      with he | ⟨d, r, hget, hds, hfr, hc⟩
    · rw [he]
      exact ⟨df, hdf, hffro⟩
    · by_cases hit : i = datasetId
      · subst hit
        rw [hget] at hdf
        injection hdf with hdeq
        refine ⟨r, ?_, ?_⟩
        · rw [hds]
          exact mapGet_mapSet_self s.datasets i r
        · rw [hfr, hdeq]
          exact hffro
      · refine ⟨df, ?_, hffro⟩
        rw [hds, mapGet_mapSet_ne _ _ _ _ hit]
        exact hdf
  | importStep sender datasetId owner name description dataType collectionDate
      altitudeMin altitudeMax latitude longitude ipfsHash isPublic mFrozen
      createdAt st s0 =>
    rcases importDataset_state_cases s sender datasetId owner name description
      dataType collectionDate altitudeMin altitudeMax latitude longitude
      ipfsHash isPublic mFrozen createdAt st with he | ⟨r, habs, hds, hc⟩
    · rw [he]
      exact ⟨df, hdf, hffro⟩
    · have hit : i ≠ datasetId := by
        intro hh
        rw [hh, habs] at hdf
        cases hdf
      refine ⟨df, ?_, hffro⟩
      rw [hds, mapGet_mapSet_ne _ _ _ _ hit]
      exact hdf
  | setAdmin sender newAdmin s0 =>
    refine ⟨df, ?_, hffro⟩
    rw [(setContractAdmin_state_frame s sender newAdmin).1]
    exact hdf
  | setPausedStep sender paused s0 =>
    refine ⟨df, ?_, hffro⟩
    rw [(setPaused_state_frame s sender paused).1]
    exact hdf

theorem counterInv_rtg (s s' : RegistryState)
    (h : Relation.ReflTransGen Step s s') (hinv : CounterInv s) :
    CounterInv s' := by
  induction h with
  | refl => exact hinv
  | tail h1 h2 ih => exact counterInv_step _ _ h2 ih

theorem frozenAt_rtg (s s' : RegistryState) (i : Nat)
    (h : Relation.ReflTransGen Step s s') (hinv : CounterInv s)
    (hfro : FrozenAt s i) : FrozenAt s' i := by
  induction h with
  | refl => exact hfro
  | tail h1 h2 ih =>
    exact frozenAt_step _ _ _ h2 (counterInv_rtg _ _ h1 hinv) ih

theorem counterInv_initial (deployer : Nat) :
    CounterInv (initialState deployer) := by
  intro id d hget
  simp [initialState, mapGet] at hget

/-- C3: in any reachable state, once a record's `metadata-frozen` flag is
true, no sequence of public calls ever turns it false again; an owner's
freeze call always leaves the record frozen and, when it was already frozen,
succeeds without changing the state at all (idempotence). -/
theorem metadataFrozen_permanent (deployer : Nat) (s s' : RegistryState)
    (datasetId sender : Nat)
    (hreach : Reachable deployer s)
    (hfrozen : FrozenAt s datasetId)
    (hsteps : Relation.ReflTransGen Step s s') :
    FrozenAt s' datasetId ∧
    (∀ d, mapGet s.datasets datasetId = some d → sender = d.owner →
      s.contractPaused = false →
      FrozenAt (freezeDatasetMetadata s sender datasetId).2 datasetId ∧
      (d.metadataFrozen = true →
        freezeDatasetMetadata s sender datasetId = (.ok true, s))) := by
  constructor
  · exact frozenAt_rtg s s' datasetId hsteps
      (counterInv_rtg _ _ hreach (counterInv_initial deployer)) hfrozen
  · intro d hdget hown hpause
    have hred : freezeDatasetMetadata s sender datasetId
        = (.ok true, { s with datasets := mapSet s.datasets datasetId { d with metadataFrozen := true } }) := by
      simp only [freezeDatasetMetadata, hdget]
      rw [if_neg (by simp [checkNotPaused, hpause]),
        if_neg (by simp [isDatasetOwner, hdget, hown])]
    constructor
    · rw [hred]
      exact ⟨{ d with metadataFrozen := true },
        mapGet_mapSet_self s.datasets datasetId _, rfl⟩
    · intro hdfro
      rw [hred]
      have hrec : ({ d with metadataFrozen := true } : Dataset) = d := by
        cases d
        simp_all
      rw [hrec, mapSet_eq_of_mapGet_eq s.datasets datasetId d hdget]

/-- C3 witness: from deployment, one admin import creates a frozen record;
the empty continuation keeps it frozen, and the owner's repeated freeze is a
no-op success. -/
theorem metadataFrozen_permanent_witness :
    FrozenAt (importDataset (initialState 0) 0 1 1 "n" "d" "t" 1 0 0 0 0 ""
      true true 7 "active").2 1 ∧
    freezeDatasetMetadata (importDataset (initialState 0) 0 1 1 "n" "d" "t" 1
      0 0 0 0 "" true true 7 "active").2 1 1
      = (.ok true, (importDataset (initialState 0) 0 1 1 "n" "d" "t" 1 0 0 0 0
        "" true true 7 "active").2) := by
  have hreach : Reachable 0 (importDataset (initialState 0) 0 1 1 "n" "d" "t"
      1 0 0 0 0 "" true true 7 "active").2 :=
    Relation.ReflTransGen.single (Step.importStep 0 1 1 "n" "d" "t" 1 0 0 0 0
      "" true true 7 "active" (initialState 0))
  have hfro : FrozenAt (importDataset (initialState 0) 0 1 1 "n" "d" "t" 1 0 0
      0 0 "" true true 7 "active").2 1 :=
    ⟨{ owner := 1, name := "n", description := "d", dataType := "t", collectionDate := 1, altitudeMin := 0, altitudeMax := 0, latitude := 0, longitude := 0, ipfsHash := "", isPublic := true, metadataFrozen := true, createdAt := 7, status := "active" }, rfl, rfl⟩
  have hmain := metadataFrozen_permanent 0 _ _ 1 1 hreach hfro
    Relation.ReflTransGen.refl
  refine ⟨hmain.1, ?_⟩
  exact (hmain.2 _ rfl rfl rfl).2 rfl
